import Mathlib

/-!
Verification development for the staged GIS sediment-discharge pipeline
(`gis_workflow.py`).  The numeric parts of the BQART engine are embedded over
`ℚ` (the source computes with Python floats; we model the arithmetic exactly),
and Python exceptions are embedded as an explicit error type returned through
`Except`.  `math.pow` is transcendental, so it is passed in as an abstract
parameter `pw : ℚ → ℚ → ℚ`; theorems that need particular values of it (such
as `sqrt 100 = 10` at the test fixture) take them as hypotheses.  Python 2
semantics are modelled where they matter: `/` on two ints is floor division,
indexing a dict with a missing key raises `KeyError`, dividing by float zero
raises `ZeroDivisionError`, and an unbound identifier raises `NameError`.
-/

set_option linter.unusedVariables false

/-- Python exceptions that the modelled code can raise.  `payload` below
records the datum the exception message carries (the missing key for
`KeyError`, the unbound identifier for `NameError`); Python's
`ZeroDivisionError` carries no datum. -/
inductive PyErr where
  | keyError (key : String)
  | nameError (nm : String)
  | valueError
  | zeroDivisionError
  | indexError
deriving DecidableEq, Repr

/-- The datum carried by a Python exception message: `KeyError` reports the
missing key and `NameError` the unbound name; `ZeroDivisionError` and
`IndexError` report nothing. -/
def PyErr.payload : PyErr → Option String
  | .keyError k => some k
  | .nameError n => some n
  | _ => none

/-- A Python value appearing in a `qs` output row: the zone id and density are
ints, physical quantities are floats (modelled as `ℚ`), and the fault id, name
and distance read from the intersect CSV are strings. -/
inductive PyVal where
  | intV (n : ℤ)
  | numV (q : ℚ)
  | strV (s : String)
deriving DecidableEq, Repr

/-- One entry of `self.fault_meta_data`, as extracted by `get_fault_data`
(keyed by the fault FID). -/
structure FaultMeta where
  name : String
  slip_min : ℚ
  slip_max : ℚ
  age_min : ℚ
  age_max : ℚ
  sense : String
deriving DecidableEq, Repr

/-- One row of the elevation zonal-statistics table (`ez_data`): the zone id
(`VALUE`) with its `MAX`, `MIN` and `AREA` statistics. -/
structure EzRow where
  value : ℤ
  maxv : ℚ
  minv : ℚ
  area : ℚ
deriving DecidableEq, Repr

/-- Python dict lookup `m[a]` as an association-list lookup (first binding
wins; `buildDict` below keeps keys unique). -/
def dget {α β : Type} [DecidableEq α] : List (α × β) → α → Option β
  | [], _ => none
  | (x, y) :: l, a => if x = a then some y else dget l a

/-- Python dict assignment `m[a] = b` / `m.update({a: b})`: replace the
binding in place if the key is present, otherwise append it. -/
def dset {α β : Type} [DecidableEq α] : List (α × β) → α → β → List (α × β)
  | [], a, b => [(a, b)]
  | (x, y) :: l, a, b => if x = a then (a, b) :: l else (x, y) :: dset l a b

/-- `m.keys()` of an association-list dict. -/
def dkeys {α β : Type} (m : List (α × β)) : List α := m.map Prod.fst

/-- Build a Python dict by running `d.update({k: v})` over a list of rows,
as the cursor loops at the top of `do_bqart` do. -/
def buildDict {α β : Type} [DecidableEq α] (rows : List (α × β)) : List (α × β) :=
  rows.foldl (fun d r => dset d r.1 r.2) []

/-- Accumulate a decimal digit string; `none` when a non-digit appears,
matching Python's `int()` raising `ValueError`. -/
def pyDigitsAux : List Char → ℕ → Option ℕ
  | [], acc => some acc
  | c :: cs, acc =>
    if c.isDigit then pyDigitsAux cs (acc * 10 + (c.toNat - 48)) else none

/-- Python's `int(s)` on a string: an optional minus sign followed by at
least one decimal digit; anything else raises `ValueError` (`none`). -/
def pyInt (s : String) : Option ℤ :=
  match s.data with
  | [] => none
  | c :: cs =>
    if c = Char.ofNat 45 then
      match cs with
      | [] => none
      | _ => (pyDigitsAux cs 0).map (fun n => -(n : ℤ))
    else (pyDigitsAux (c :: cs) 0).map (fun n => (n : ℤ))

/-- A Python `for` loop that appends one result per element and propagates the
first raised exception, aborting the rest of the loop. -/
def pyFor {α β : Type} (f : α → Except PyErr β) : List α → Except PyErr (List β)
  | [] => .ok []
  | a :: l =>
    match f a with
    | .error e => .error e
    | .ok b =>
      match pyFor f l with
      | .error e => .error e
      | .ok bs => .ok (b :: bs)

/-- All intermediate quantities derived per zone by the body of the
`for k in precips.keys()` loop of `do_bqart` (source lines 677-718), in the
order the source computes them.  `pw` stands for `math.pow`.  Note that
`1000000000/density` is Python 2 int/int, i.e. floor division. -/
structure BqartQuantities where
  zone : ℤ
  precip : ℚ
  area_m_squared : ℚ
  relief : ℚ
  temp : ℚ
  density : ℤ
  omega : ℚ
  B : ℚ
  precip_m : ℚ
  relief_km : ℚ
  area_km_squared : ℚ
  precip_m3_yr : ℚ
  Qw_s : ℚ
  Qw_km_yr : ℚ
  A : ℚ
  Qs_MT_yr : ℚ
  Qs_m3_yr : ℚ
deriving DecidableEq, Repr

/-- The per-zone derived-quantity chain of `do_bqart` (source lines 677-718,
up to but excluding the division by the zone area).  Arguments are the raw
per-zone statistics: `precip = precips[k]`, `area_m_squared = areas[k]`,
`relief = max_reliefs[k] - min_reliefs[k]`, and `temp10 = temps[k]` (tenths of
a degree, divided by 10 here as in the source). -/
def bqart_chain (pw : ℚ → ℚ → ℚ) (k : ℤ)
    (precip area_m_squared relief temp10 : ℚ) : BqartQuantities :=
  let temp := temp10 / 10
  let density : ℤ := 2700
  let omega : ℚ := 6 / 10000
  let B : ℚ := 1
  let precip_m := precip / 1000
  let relief_km := relief / 1000
  let area_km_squared := area_m_squared / 1000000
  let precip_m3_yr := precip_m * area_m_squared
  let Qw_s := precip_m3_yr / (60 * 60 * 24 * 365)
  let Qw_km_yr := pw ((Qw_s * 31536000) / 1000000000) (31 / 100)
  let A := pw area_km_squared (1 / 2)
  let Qs_MT_yr := omega * B * Qw_km_yr * A * relief_km * temp
  let Qs_m3_yr := Qs_MT_yr * (((1000000000 / density : ℤ) : ℚ) * (13 / 10))
  { zone := k, precip := precip, area_m_squared := area_m_squared,
    relief := relief, temp := temp, density := density, omega := omega, B := B,
    precip_m := precip_m, relief_km := relief_km,
    area_km_squared := area_km_squared, precip_m3_yr := precip_m3_yr,
    Qw_s := Qw_s, Qw_km_yr := Qw_km_yr, A := A, Qs_MT_yr := Qs_MT_yr,
    Qs_m3_yr := Qs_m3_yr }

/-- The body of the `for k in precips.keys()` loop of `do_bqart` (source
lines 675-756) for one zone `k`.  Dict subscripts are looked up in source
order (`precips[k]`, `areas[k]`, `max_reliefs[k]`, `min_reliefs[k]`,
`temps[k]`), each raising `KeyError` when absent.  `Qs_m_yr` divides by the
zone area, raising `ZeroDivisionError` on a zero-area zone.  When the fault
table is non-empty, `fault_data_output[str(k)]` raises `KeyError` for a zone
with no correlation entry; when it is empty, the uniform-uplift branch
evaluates `Area_square_m`, an identifier bound nowhere in the source, so
Python raises `NameError`. -/
def bqartLoopBody (pw : ℚ → ℚ → ℚ)
    (temps precips max_reliefs min_reliefs areas : List (ℤ × ℚ))
    (fault_data_output : List (String × String × String))
    (fault_meta_data : List (ℤ × FaultMeta))
    (uplift_rate : ℚ) (k : ℤ) : Except PyErr (List PyVal) :=
  match dget precips k with
  | none => .error (.keyError (toString k))
  | some precip =>
    match dget areas k with
    | none => .error (.keyError (toString k))
    | some area_m_squared =>
      match dget max_reliefs k, dget min_reliefs k with
      | none, _ => .error (.keyError (toString k))
      | _, none => .error (.keyError (toString k))
      | some mx, some mn =>
        match dget temps k with
        | none => .error (.keyError (toString k))
        | some t =>
          let q := bqart_chain pw k precip area_m_squared (mx - mn) t
          if q.area_m_squared = 0 then .error .zeroDivisionError
          else
            let Qs_m_yr := q.Qs_m3_yr / q.area_m_squared
            let Qs_mm_yr := Qs_m_yr * 1000
            let qs : List PyVal :=
              [.intV k, .numV precip, .numV q.omega, .numV q.B, .numV q.Qw_s,
               .numV q.Qw_km_yr, .numV q.A, .numV q.relief_km, .numV q.temp,
               .numV q.Qs_MT_yr, .intV q.density, .numV q.Qs_m3_yr,
               .numV Qs_m_yr, .numV Qs_mm_yr]
            if fault_data_output ≠ [] then
              match dget fault_data_output (toString k) with
              | none => .error (.keyError (toString k))
              | some fr =>
                match pyInt fr.1 with
                | none => .error .valueError
                | some fid =>
                  match dget fault_meta_data fid with
                  | none => .error (.keyError (toString fid))
                  | some fm =>
                    let fault_slip_mm_yr := fm.slip_max
                    let Q_tectonic :=
                      (q.area_m_squared * (fault_slip_mm_yr / 1000)) / ((q.density : ℚ))
                    .ok (qs ++ [.numV fault_slip_mm_yr, .numV Q_tectonic,
                      .strV fr.1, .strV fm.name, .strV fr.2])
            else
              let Uplift_mm_yr := uplift_rate
              let Uplift_metres_yr := Uplift_mm_yr / 1000
              -- `Q_tectonic = Area_square_m * Uplift_metres_yr`:
              -- `Area_square_m` is unbound in the source, so Python raises here
              .error (.nameError "Area_square_m")

/-- `do_bqart` (source lines 611-758).  The zonal-statistics cursors are
modelled as row lists; the dicts `temps`, `precips`, `max_reliefs`,
`min_reliefs` and `areas` are built from them by repeated `update`.
`fault_data` is `none` when the fault CSV path is falsy or the file is
absent (source line 641-647), otherwise the parsed rows
`(id, fault, distance)`.  The per-zone loop iterates over
`precips.keys()`. -/
def do_bqart (pw : ℚ → ℚ → ℚ) (tz pz : List (ℤ × ℚ)) (ez : List EzRow)
    (fault_data : Option (List (String × String × String)))
    (fault_meta_data : List (ℤ × FaultMeta)) (uplift_rate : ℚ) :
    Except PyErr (List (List PyVal)) :=
  let temps := buildDict tz
  let precips := buildDict pz
  let max_reliefs := buildDict (ez.map (fun r => (r.value, r.maxv)))
  let min_reliefs := buildDict (ez.map (fun r => (r.value, r.minv)))
  let areas := buildDict (ez.map (fun r => (r.value, r.area)))
  let fault_data_output : List (String × String × String) :=
    match fault_data with
    | none => []
    | some rows => buildDict rows
  pyFor (bqartLoopBody pw temps precips max_reliefs min_reliefs areas
    fault_data_output fault_meta_data uplift_rate) (dkeys precips)

/-- `check_climate_cache` (source lines 567-575): a lookup is a hit exactly
when the file `<datatype>_<scenario>_clip.tif` exists under the watershed
batch's `climate_cache` directory, and the hit value is that exact path.
`files` is the set of existing file paths; the Python `False` miss value is
modelled as `none`. -/
def check_climate_cache (files : List String)
    (watershed_directory climate_scenario datatype : String) : Option String :=
  let raster_name := datatype ++ "_" ++ climate_scenario ++ "_clip.tif"
  let raster_cache_path := watershed_directory ++ "/climate_cache/" ++ raster_name
  if raster_cache_path ∈ files then some raster_cache_path else none

/-- A call that the climate section of `bqart_workflow` makes against the
terrain-analysis service: `average` is `average_rasters(search_directory,
save_directory, name, monthly)` and `clip` is `clip_raster(input_raster,
save_directory, name, extent)`. -/
inductive ClimateOp where
  | average (search_directory save_directory name : String) (monthly : Bool)
  | clip (input_raster save_directory name extent : String)
deriving DecidableEq, Repr

/-- Outcome of the climate section of `bqart_workflow`: the service calls it
issued, in order, and the `precip_clip` / `temp_clip` raster paths it passes
on to the zonal-statistics step (`none` models Python `False`). -/
structure ClimateResult where
  ops : List ClimateOp
  precip_clip : Option String
  temp_clip : Option String
deriving DecidableEq, Repr

/-- The climate-cache section of `bqart_workflow` (source lines 273-305),
including its exact cache probes: `precip_cache_check` probes datatype `"t"`
and `temp_cache_check` probes datatype `"p"`, and on a precipitation cache
hit `precip_clip` is assigned `temp_cache_check`. -/
def bqart_workflow_climate (files : List String)
    (watershed_path climate_scenario temp_directory precip_directory
      watershed_raster : String) : ClimateResult :=
  let climate_cache_path := watershed_path ++ "/climate_cache"
  let precip_cache_check := check_climate_cache files watershed_path climate_scenario "t"
  let temp_cache_check := check_climate_cache files watershed_path climate_scenario "p"
  let precip_part : List ClimateOp × Option String :=
    match precip_cache_check with
    | some _ => ([], temp_cache_check)
    | none =>
      let combined_name := "p_" ++ climate_scenario ++ "_all.tif"
      let clip_name := "p_" ++ climate_scenario ++ "_clip.tif"
      let precip_raster_path := climate_cache_path ++ "/" ++ combined_name
      ([.average precip_directory climate_cache_path combined_name false,
        .clip precip_raster_path climate_cache_path clip_name watershed_raster],
       some (climate_cache_path ++ "/" ++ clip_name))
  let temp_part : List ClimateOp × Option String :=
    match temp_cache_check with
    | some _ => ([], temp_cache_check)
    | none =>
      let combined_name := "t_" ++ climate_scenario ++ "_all.tif"
      let clip_name := "t_" ++ climate_scenario ++ "_clip.tif"
      let temp_raster_path := climate_cache_path ++ "/" ++ combined_name
      ([.average temp_directory climate_cache_path combined_name true,
        .clip temp_raster_path climate_cache_path clip_name watershed_raster],
       some (climate_cache_path ++ "/" ++ clip_name))
  { ops := precip_part.1 ++ temp_part.1,
    precip_clip := precip_part.2, temp_clip := temp_part.2 }

/-- Pixel semantics of `average_rasters` (source lines 577-594): sum the
rasters of the source directory pixel-wise, and when `monthly` is set
(temperature) divide by the number of rasters.  A raster is a function from
pixel positions to values. -/
def average_rasters {ι : Type} (rasters : List (ι → ℚ)) (monthly : Bool) : ι → ℚ :=
  let raster_sum : ι → ℚ := fun i => (rasters.map (fun r => r i)).sum
  if monthly then fun i => raster_sum i / (rasters.length : ℚ) else raster_sum

/-- The fixed 16 header names written by `save_data_to_csv`
(source lines 762-764). -/
def row_headers : List String :=
  ["id", "precipitation (mm/yr)", "w", "B", "Qw (m^3/s)", "Qw (km^3/yr)",
   "A (km^2)", "R (km)", "T(C)", "Qs (MT/y)", "density (kg/m^3)",
   "Qs (m^3/yr)", "erosion (m/yr)", "erosion (mm/yr)", "Slip (mm/yr)",
   "Qs Tectonic (m^3/yr)"]

/-- `save_data_to_csv` (source lines 760-776) as the CSV content it writes:
the header row followed by the data rows.  The three fault columns are added
exactly when `len(qs_data[0]) > 16`; on an empty table `qs_data[0]` raises
`IndexError`. -/
def save_data_to_csv (qs_data : List (List PyVal)) :
    Except PyErr (List String × List (List PyVal)) :=
  match qs_data with
  | [] => .error .indexError
  | first :: _ =>
    let headers :=
      if 16 < first.length then
        row_headers ++ ["fault id", "fault name", "distance"]
      else row_headers
    .ok (headers, qs_data)

/-- A value stored in a stage manifest (`hydro_paths.yml`): a path or plain
string, a number (the uplift rate), or the fault metadata mapping that
`fault_workflow` stores under `fault_meta_data`. -/
inductive YVal where
  | strY (v : String)
  | numY (v : ℚ)
  | metaY (v : List (ℤ × FaultMeta))
deriving DecidableEq, Repr

/-- The `hydro_paths` mapping that `hydro_workflow` builds and persists
(source lines 172-186).  Note the key `fault_data_meta`: this spelling
differs from the `fault_meta_data` key that `fault_workflow` writes. -/
def hydro_paths_manifest (fill_path flow_path flow_acc_path stream_net_path
    null_path s_ord_path vector_streams : String) (uplift_mm_yr : ℚ) :
    List (String × YVal) :=
  [("fill_path", .strY fill_path),
   ("flow_path", .strY flow_path),
   ("flow_acc_path", .strY flow_acc_path),
   ("stream_net_path", .strY stream_net_path),
   ("null_path", .strY null_path),
   ("s_ord_path", .strY s_ord_path),
   ("vector_streams", .strY vector_streams),
   ("fault_data", .strY ""),
   ("fault_data_meta", .strY ""),
   ("uplift_rate", .numY uplift_mm_yr)]

/-- The manifest updates `fault_workflow` performs before re-persisting the
mapping (source lines 230-234): `hydro_paths['fault_data'] = self.fault_data`
and `hydro_paths['fault_meta_data'] = self.fault_meta_data`, then the whole
mapping is dumped to `hydro_paths.yml`. -/
def fault_workflow_manifest (hydro_paths : List (String × YVal))
    (fault_data : String) (fault_meta_data : List (ℤ × FaultMeta)) :
    List (String × YVal) :=
  dset (dset hydro_paths "fault_data" (.strY fault_data))
    "fault_meta_data" (.metaY fault_meta_data)

/-- Persisting a manifest file: the batch directory maps file paths to
manifest contents (YAML serialization is an external collaborator and is
modelled as faithful). -/
def manifest_write (fs : List (String × List (String × YVal))) (path : String)
    (m : List (String × YVal)) : List (String × List (String × YVal)) :=
  dset fs path m

/-- Reading a persisted manifest file back. -/
def manifest_read (fs : List (String × List (String × YVal))) (path : String) :
    Option (List (String × YVal)) :=
  dget fs path

/-- The manifest reads `bqart_workflow` performs to assemble the `do_bqart`
call (source lines 315-317): `hydro_paths['fault_data']`,
`hydro_paths['fault_meta_data']`, `hydro_paths['uplift_rate']`, in argument
order, each raising `KeyError` when the key is absent. -/
def bqart_manifest_args (hydro_paths : List (String × YVal)) :
    Except PyErr (YVal × YVal × YVal) :=
  match dget hydro_paths "fault_data" with
  | none => .error (.keyError "fault_data")
  | some fd =>
    match dget hydro_paths "fault_meta_data" with
    | none => .error (.keyError "fault_meta_data")
    | some md =>
      match dget hydro_paths "uplift_rate" with
      | none => .error (.keyError "uplift_rate")
      | some ur => .ok (fd, md, ur)

/-- A concrete stand-in for `math.pow`, used to instantiate witnesses and
counterexamples: it returns the exact value of the one square root the BQART
fixture needs (`pow(100, 0.5) = 10`) and `1` elsewhere. -/
def pwExample : ℚ → ℚ → ℚ := fun x _ => if x = 100 then 10 else 1

/-- Fault metadata entry used by concrete runs. -/
def fmExample : FaultMeta :=
  { name := "FaultA", slip_min := 1, slip_max := 2, age_min := 0, age_max := 10,
    sense := "normal" }

/-- Concrete `fault_meta_data` mapping FID 0 to `fmExample`. -/
def metaExample : List (ℤ × FaultMeta) := [(0, fmExample)]

/-- Temperature zonal statistics for the two-zone concrete run. -/
def tzTwo : List (ℤ × ℚ) := [(1, 200), (2, 210)]

/-- Precipitation zonal statistics for the two-zone concrete run. -/
def pzTwo : List (ℤ × ℚ) := [(1, 1000), (2, 900)]

/-- Elevation zonal statistics for the two-zone concrete run. -/
def ezTwo : List EzRow :=
  [{ value := 1, maxv := 2000, minv := 0, area := 100000000 },
   { value := 2, maxv := 1500, minv := 100, area := 50000000 }]

/-- Elevation statistics containing an extra zone `3` that is absent from
the precipitation table. -/
def ezThree : List EzRow :=
  ezTwo ++ [{ value := 3, maxv := 900, minv := 50, area := 25000000 }]

/-- Fault-correlation CSV rows covering only zone 1. -/
def faultRowsOne : List (String × String × String) := [("1", "0", "5")]

/-- Fault-correlation CSV rows covering zones 1 and 2. -/
def faultRowsTwo : List (String × String × String) := [("1", "0", "5"), ("2", "0", "7")]

/-- The successful two-zone BQART run whose output drives the iteration
witness: fault correlations exist for both precipitation-keyed zones, and the
elevation table contains the extra zone 3. -/
def doBqartRun : Except PyErr (List (List PyVal)) :=
  do_bqart pwExample tzTwo pzTwo ezThree (some faultRowsTwo) metaExample 1

/-- The rows of `doBqartRun` (defined so the witness can name the concrete
output without spelling out every rational). -/
def rowsRun : List (List PyVal) :=
  match doBqartRun with
  | .ok rows => rows
  | .error _ => []

/-- A 16-field sediment-yield record of the uniform-uplift shape. -/
def qsRowUniform : List PyVal :=
  [.intV 7, .numV 500, .numV (6 / 10000), .numV 1, .numV 1, .numV 1, .numV 5,
   .numV 1, .numV 15, .numV 1, .intV 2700, .numV 100, .numV 1, .numV 1,
   .numV 2, .numV 50]

/-- A 19-field sediment-yield record carrying the fault-correlation fields. -/
def qsRowFault : List PyVal :=
  [.intV 8, .numV 600, .numV (6 / 10000), .numV 1, .numV 1, .numV 1, .numV 6,
   .numV 1, .numV 16, .numV 1, .intV 2700, .numV 110, .numV 1, .numV 1,
   .numV 3, .numV 60, .strV "0", .strV "FaultA", .strV "12"]

/-- A table whose fault-carrying record is not the first one. -/
def qsMixed : List (List PyVal) := [qsRowUniform, qsRowFault]

/-- A climate-cache state in which only the precipitation clip
`p_s_clip.tif` exists (the temperature clip was deleted to refresh it, or a
prior run stopped after the precipitation build). -/
def filesPOnly : List String := ["w/climate_cache/p_s_clip.tif"]

/-- Two constant rasters over integer pixel positions, used to instantiate
the climate-build witness. -/
def rastersExample : List (ℕ → ℚ) := [fun _ => 3, fun _ => 5]

theorem dget_dset_self {α β : Type} [DecidableEq α] (m : List (α × β)) (a : α) (b : β) :
    dget (dset m a b) a = some b := by
  induction m with
  | nil => simp [dget, dset]
  | cons p l ih =>
    by_cases h : p.1 = a
    · simp [dset, h, dget]
    · simp [dset, h, dget, ih]

theorem dget_dset_ne {α β : Type} [DecidableEq α] (m : List (α × β)) (a c : α) (b : β)
    (h : a ≠ c) : dget (dset m a b) c = dget m c := by
  induction m with
  | nil => simp [dget, dset, h]
  | cons p l ih =>
    by_cases hp : p.1 = a
    · simp [dset, hp, dget, h, hp ▸ h]
    · by_cases hc : p.1 = c
      · have hca : ¬c = a := fun hh => h hh.symm
        simp [dset, hp, dget, hc, hca]
      · simp [dset, hp, dget, hc, ih]

theorem pyFor_ok_forall2 {α β : Type} {f : α → Except PyErr β} :
    ∀ (l : List α) (rows : List β), pyFor f l = .ok rows →
      List.Forall₂ (fun a b => f a = .ok b) l rows := by
  intro l
  induction l with
  | nil =>
    intro rows h
    simp only [pyFor] at h
    cases h
    exact .nil
  | cons a t ih =>
    intro rows h
    simp only [pyFor] at h
    split at h
    next e heq => cases h
    next b heq =>
      split at h
      next e2 heq2 => cases h
      next bs heq2 =>
        cases h
        exact .cons heq (ih _ heq2)

theorem bqartLoopBody_head (pw : ℚ → ℚ → ℚ)
    (temps precips max_reliefs min_reliefs areas : List (ℤ × ℚ))
    (fdo : List (String × String × String)) (fmeta : List (ℤ × FaultMeta))
    (ur : ℚ) (k : ℤ) (r : List PyVal)
    (h : bqartLoopBody pw temps precips max_reliefs min_reliefs areas fdo
      fmeta ur k = .ok r) :
    r.head? = some (.intV k) := by
  simp only [bqartLoopBody] at h
  split at h
  · cases h
  · split at h
    · cases h
    · split at h
      · cases h
      · cases h
      · split at h
        · cases h
        · split at h
          · cases h
          · split at h
            · split at h
              · cases h
              · split at h
                · cases h
                · split at h
                  · cases h
                  · cases h
                    rfl
            · cases h

theorem forall2_head_map {f : ℤ → Except PyErr (List PyVal)}
    (hh : ∀ k r, f k = .ok r → r.head? = some (PyVal.intV k)) :
    ∀ (l : List ℤ) (rows : List (List PyVal)),
      List.Forall₂ (fun a b => f a = .ok b) l rows →
      rows.map (fun r => r.head?) = l.map (fun k => some (PyVal.intV k)) := by
  intro l rows h
  induction h with
  | nil => rfl
  | @cons a b ta tb hab _ ih => simp [List.map, ih, hh _ _ hab]

/-- C10: a run that skips the fault stage hands `bqart_workflow` a manifest
written only by `hydro_workflow`, which initializes the entry under the
spelling `fault_data_meta`; only `fault_workflow` ever writes
`fault_meta_data`, so the BQART stage's read of `fault_meta_data` fails with
an uncaught `KeyError` for every such run, whatever the hydrology outputs
were. -/
theorem bqart_reads_missing_fault_meta_key
    (fill_path flow_path flow_acc_path stream_net_path null_path s_ord_path
      vector_streams : String) (uplift_mm_yr : ℚ) :
    bqart_manifest_args (hydro_paths_manifest fill_path flow_path
        flow_acc_path stream_net_path null_path s_ord_path vector_streams
        uplift_mm_yr) = .error (.keyError "fault_meta_data") ∧
    dget (hydro_paths_manifest fill_path flow_path flow_acc_path
        stream_net_path null_path s_ord_path vector_streams uplift_mm_yr)
      "fault_data_meta" = some (.strY "") := by
  constructor <;> rfl

/-- C6: after `fault_workflow` re-persists the manifest, every key/value
pair written by the hydrology stage other than the two entries the fault
stage itself writes is unchanged, the fault stage's `fault_data` and
`fault_meta_data` entries are present with the values it wrote, and reading
the persisted manifest back returns exactly the mapping that was written. -/
theorem fault_manifest_preserves_hydro
    (fill_path flow_path flow_acc_path stream_net_path null_path s_ord_path
      vector_streams : String) (uplift_mm_yr : ℚ) (fault_data : String)
    (fault_meta_data : List (ℤ × FaultMeta)) (k : String)
    (hk1 : k ≠ "fault_data") (hk2 : k ≠ "fault_meta_data")
    (fs : List (String × List (String × YVal))) (path : String) :
    dget (fault_workflow_manifest (hydro_paths_manifest fill_path flow_path
        flow_acc_path stream_net_path null_path s_ord_path vector_streams
        uplift_mm_yr) fault_data fault_meta_data) k =
      dget (hydro_paths_manifest fill_path flow_path flow_acc_path
        stream_net_path null_path s_ord_path vector_streams uplift_mm_yr) k ∧
    dget (fault_workflow_manifest (hydro_paths_manifest fill_path flow_path
        flow_acc_path stream_net_path null_path s_ord_path vector_streams
        uplift_mm_yr) fault_data fault_meta_data) "fault_data" =
      some (.strY fault_data) ∧
    dget (fault_workflow_manifest (hydro_paths_manifest fill_path flow_path
        flow_acc_path stream_net_path null_path s_ord_path vector_streams
        uplift_mm_yr) fault_data fault_meta_data) "fault_meta_data" =
      some (.metaY fault_meta_data) ∧
    manifest_read (manifest_write fs path (fault_workflow_manifest
        (hydro_paths_manifest fill_path flow_path flow_acc_path
          stream_net_path null_path s_ord_path vector_streams uplift_mm_yr)
        fault_data fault_meta_data)) path =
      some (fault_workflow_manifest (hydro_paths_manifest fill_path flow_path
        flow_acc_path stream_net_path null_path s_ord_path vector_streams
        uplift_mm_yr) fault_data fault_meta_data) := by
  refine ⟨?_, ?_, ?_, ?_⟩
  · unfold fault_workflow_manifest
    rw [dget_dset_ne _ _ _ _ (Ne.symm hk2), dget_dset_ne _ _ _ _ (Ne.symm hk1)]
  · unfold fault_workflow_manifest
    rw [dget_dset_ne _ _ _ _ (by decide), dget_dset_self]
  · unfold fault_workflow_manifest
    rw [dget_dset_self]
  · unfold manifest_read manifest_write
    rw [dget_dset_self]

/-- C6 witness: the preservation statement instantiated at the key
`fill_path` and concrete stage outputs. -/
theorem fault_manifest_preserves_hydro_witness :
    ("fill_path" : String) ≠ "fault_data" ∧
    ("fill_path" : String) ≠ "fault_meta_data" ∧
    (dget (fault_workflow_manifest (hydro_paths_manifest "a" "b" "c" "d" "e"
        "f" "g" 2) "fd.csv" []) "fill_path" =
      dget (hydro_paths_manifest "a" "b" "c" "d" "e" "f" "g" 2) "fill_path" ∧
    dget (fault_workflow_manifest (hydro_paths_manifest "a" "b" "c" "d" "e"
        "f" "g" 2) "fd.csv" []) "fault_data" = some (.strY "fd.csv") ∧
    dget (fault_workflow_manifest (hydro_paths_manifest "a" "b" "c" "d" "e"
        "f" "g" 2) "fd.csv" []) "fault_meta_data" = some (.metaY []) ∧
    manifest_read (manifest_write [] "hydro_paths.yml"
        (fault_workflow_manifest (hydro_paths_manifest "a" "b" "c" "d" "e"
          "f" "g" 2) "fd.csv" [])) "hydro_paths.yml" =
      some (fault_workflow_manifest (hydro_paths_manifest "a" "b" "c" "d" "e"
        "f" "g" 2) "fd.csv" [])) :=
  ⟨by decide, by decide,
    fault_manifest_preserves_hydro "a" "b" "c" "d" "e" "f" "g" 2 "fd.csv" []
      "fill_path" (by decide) (by decide) [] "hydro_paths.yml"⟩

/-- C9 counterexample: on a table whose fault-carrying record is not the
first one, `save_data_to_csv` omits the three fault columns even though a
record carries the fault-correlation fields, so the claimed
"at least one record" criterion is false of the code. -/
theorem csv_headers_late_fault_cex :
    save_data_to_csv qsMixed = .ok (row_headers, qsMixed) ∧
    qsRowFault ∈ qsMixed ∧ 16 < qsRowFault.length ∧
    "fault id" ∉ row_headers := by
  refine ⟨rfl, by simp [qsMixed], by norm_num [qsRowFault], by decide⟩

/-- C9 amended: the three trailing fault columns appear in the CSV header if
and only if the first record of the table carries the fault-correlation
fields (`len(qs_data[0]) > 16`); records after the first are not consulted. -/
theorem csv_fault_headers_first_record (first : List PyVal)
    (rest : List (List PyVal)) :
    ∃ hs, save_data_to_csv (first :: rest) = .ok (hs, first :: rest) ∧
      (("fault id" ∈ hs ∧ "fault name" ∈ hs ∧ "distance" ∈ hs) ↔
        16 < first.length) := by
  refine ⟨_, rfl, ?_⟩
  by_cases h : 16 < first.length
  · simp only [if_pos h]
    simp [row_headers, h]
  · simp only [if_neg h]
    simp [row_headers, h]

/-- C4: with only the precipitation clip `p_s_clip.tif` present (its key was
built once), a second BQART run re-invokes the precipitation averaging and
clipping because `precip_cache_check` probes the temperature file, and the
temperature branch reuses the precipitation clip as `temp_clip`; yet
`check_climate_cache` itself, probed with datatype `p`, is a hit returning
exactly the persisted path. -/
theorem climate_cache_swapped_check :
    check_climate_cache filesPOnly "w" "s" "p" =
      some "w/climate_cache/p_s_clip.tif" ∧
    (bqart_workflow_climate filesPOnly "w" "s" "td" "pd" "wr").ops =
      [.average "pd" "w/climate_cache" "p_s_all.tif" false,
       .clip "w/climate_cache/p_s_all.tif" "w/climate_cache" "p_s_clip.tif"
         "wr"] ∧
    (bqart_workflow_climate filesPOnly "w" "s" "td" "pd" "wr").temp_clip =
      some "w/climate_cache/p_s_clip.tif" := by
  refine ⟨by decide, by decide, by decide⟩

/-- C8: for a non-empty source directory the temperature build produces the
pixel-wise mean (sum divided by the raster count) and the precipitation
build the pixel-wise sum; and on a cold cache the workflow calls the
averaging step with `monthly = 0` for precipitation and `monthly = 1` for
temperature, clipping each combined raster to the watershed extent. -/
theorem climate_build_mean_sum {ι : Type} (rasters : List (ι → ℚ))
    (hne : rasters ≠ []) (i : ι)
    (watershed_path climate_scenario temp_directory precip_directory
      watershed_raster : String) :
    average_rasters rasters true i =
      (rasters.map (fun r => r i)).sum / (rasters.length : ℚ) ∧
    average_rasters rasters false i = (rasters.map (fun r => r i)).sum ∧
    (bqart_workflow_climate [] watershed_path climate_scenario temp_directory
        precip_directory watershed_raster).ops =
      [.average precip_directory (watershed_path ++ "/climate_cache")
         ("p_" ++ climate_scenario ++ "_all.tif") false,
       .clip ((watershed_path ++ "/climate_cache") ++ "/" ++
           ("p_" ++ climate_scenario ++ "_all.tif"))
         (watershed_path ++ "/climate_cache")
         ("p_" ++ climate_scenario ++ "_clip.tif") watershed_raster,
       .average temp_directory (watershed_path ++ "/climate_cache")
         ("t_" ++ climate_scenario ++ "_all.tif") true,
       .clip ((watershed_path ++ "/climate_cache") ++ "/" ++
           ("t_" ++ climate_scenario ++ "_all.tif"))
         (watershed_path ++ "/climate_cache")
         ("t_" ++ climate_scenario ++ "_clip.tif") watershed_raster] := by
  refine ⟨rfl, rfl, rfl⟩

/-- C8 witness: the climate-build semantics instantiated at two concrete
constant rasters and a concrete pixel. -/
theorem climate_build_mean_sum_witness :
    rastersExample ≠ [] ∧
    (average_rasters rastersExample true 0 =
      (rastersExample.map (fun r => r 0)).sum / (rastersExample.length : ℚ) ∧
    average_rasters rastersExample false 0 =
      (rastersExample.map (fun r => r 0)).sum ∧
    (bqart_workflow_climate [] "w" "s" "td" "pd" "wr").ops =
      [.average "pd" ("w" ++ "/climate_cache") ("p_" ++ "s" ++ "_all.tif")
         false,
       .clip (("w" ++ "/climate_cache") ++ "/" ++ ("p_" ++ "s" ++ "_all.tif"))
         ("w" ++ "/climate_cache") ("p_" ++ "s" ++ "_clip.tif") "wr",
       .average "td" ("w" ++ "/climate_cache") ("t_" ++ "s" ++ "_all.tif")
         true,
       .clip (("w" ++ "/climate_cache") ++ "/" ++ ("t_" ++ "s" ++ "_all.tif"))
         ("w" ++ "/climate_cache") ("t_" ++ "s" ++ "_clip.tif") "wr"]) :=
  ⟨by simp [rastersExample],
    climate_build_mean_sum rastersExample (by simp [rastersExample]) 0
      "w" "s" "td" "pd" "wr"⟩

/-- C2: a zone with no fault correlation takes the uniform-uplift branch,
which evaluates the unbound identifier `Area_square_m`; the run aborts with
`NameError` instead of computing `Q_tectonic` and appending
`uplift_rate`/`Q_tectonic` (and the expression as written also omits the
division by density that the fault branch performs). -/
theorem uniform_uplift_name_error :
    do_bqart pwExample [(1, 200)] [(1, 1000)]
      [{ value := 1, maxv := 2000, minv := 0, area := 100000000 }] none [] 1 =
      .error (.nameError "Area_square_m") := by
  rfl

/-- C3: with a non-empty correlation table that covers zone 1 but not zone 2,
processing zone 2 evaluates `fault_data_output[str(k)]` on a missing key and
the whole BQART stage aborts with `KeyError: 2` — there is no per-zone
fallback to the uniform-uplift term. -/
theorem missing_correlation_key_error :
    do_bqart pwExample tzTwo pzTwo ezTwo (some faultRowsOne) metaExample 1 =
      .error (.keyError "2") := by
  rfl

/-- C5 counterexample: a zero-area zone aborts the BQART stage with Python's
`ZeroDivisionError` (so no output record and no NaN), but that exception
carries no datum at all — in particular it does not report the offending
zone id, contrary to the claim. -/
theorem zero_area_error_no_zone_id_cex :
    do_bqart pwExample [(5, 200)] [(5, 1000)]
      [{ value := 5, maxv := 100, minv := 0, area := 0 }] none [] 1 =
      .error .zeroDivisionError ∧
    PyErr.payload .zeroDivisionError = none := by
  exact ⟨rfl, rfl⟩

/-- C5 amended: when the first zone the loop visits has a zero area
statistic (and its other statistics are present), the BQART stage fails
fatally with `ZeroDivisionError` — no output record is produced and no NaN —
but the exception does not name the offending zone. -/
theorem zero_area_zone_fatal (pw : ℚ → ℚ → ℚ) (tz pz : List (ℤ × ℚ))
    (ez : List EzRow) (fd : Option (List (String × String × String)))
    (fmeta : List (ℤ × FaultMeta)) (ur : ℚ) (k : ℤ) (p M m t : ℚ)
    (rest : List (ℤ × ℚ))
    (hpz : buildDict pz = (k, p) :: rest)
    (harea : dget (buildDict (ez.map (fun r => (r.value, r.area)))) k = some 0)
    (hmax : dget (buildDict (ez.map (fun r => (r.value, r.maxv)))) k = some M)
    (hmin : dget (buildDict (ez.map (fun r => (r.value, r.minv)))) k = some m)
    (htemp : dget (buildDict tz) k = some t) :
    do_bqart pw tz pz ez fd fmeta ur = .error .zeroDivisionError ∧
    PyErr.payload .zeroDivisionError = none := by
  have hk : dget (buildDict pz) k = some p := by rw [hpz]; simp [dget]
  refine ⟨?_, rfl⟩
  simp only [do_bqart, dkeys, hpz, List.map_cons]
  simp only [pyFor, bqartLoopBody, hk, harea, hmax, hmin, htemp]
  simp [bqart_chain, dget]

/-- C5 witness: the zero-area failure instantiated at a concrete single-zone
batch. -/
theorem zero_area_zone_fatal_witness :
    buildDict [((5 : ℤ), (1000 : ℚ))] = [(5, 1000)] ∧
    dget (buildDict (([{ value := 5, maxv := 100, minv := 0, area := 0 }] :
      List EzRow).map (fun r => (r.value, r.area)))) 5 = some 0 ∧
    dget (buildDict (([{ value := 5, maxv := 100, minv := 0, area := 0 }] :
      List EzRow).map (fun r => (r.value, r.maxv)))) 5 = some 100 ∧
    dget (buildDict (([{ value := 5, maxv := 100, minv := 0, area := 0 }] :
      List EzRow).map (fun r => (r.value, r.minv)))) 5 = some 0 ∧
    dget (buildDict [((5 : ℤ), (200 : ℚ))]) 5 = some 200 ∧
    (do_bqart pwExample [(5, 200)] [(5, 1000)]
        [{ value := 5, maxv := 100, minv := 0, area := 0 }] none [] 1 =
        .error .zeroDivisionError ∧
      PyErr.payload .zeroDivisionError = none) :=
  ⟨rfl, rfl, rfl, rfl, rfl,
    zero_area_zone_fatal pwExample [(5, 200)] [(5, 1000)]
      [{ value := 5, maxv := 100, minv := 0, area := 0 }] none [] 1 5 1000
      100 0 200 [] rfl rfl rfl rfl rfl⟩

/-- C7: the per-zone iteration of `do_bqart` is driven by the keys of the
precipitation mapping, so on any successful run the output rows are exactly
one per precipitation key (in order), and a zone id present in the elevation
table but absent from the precipitation table gets no output record at
all. -/
theorem bqart_iteration_precip_keyed (pw : ℚ → ℚ → ℚ) (tz pz : List (ℤ × ℚ))
    (ez : List EzRow) (fd : Option (List (String × String × String)))
    (fmeta : List (ℤ × FaultMeta)) (ur : ℚ) (rows : List (List PyVal)) (z : ℤ)
    (hok : do_bqart pw tz pz ez fd fmeta ur = .ok rows)
    (hez : z ∈ ez.map (fun r => r.value))
    (hz : z ∉ dkeys (buildDict pz)) :
    (∀ r ∈ rows, r.head? ≠ some (.intV z)) ∧
      rows.map (fun r => r.head?) =
        (dkeys (buildDict pz)).map (fun k => some (PyVal.intV k)) := by
  simp only [do_bqart] at hok
  have h2 := pyFor_ok_forall2 _ _ hok
  have hmap := forall2_head_map
    (fun k r hr => bqartLoopBody_head _ _ _ _ _ _ _ _ _ _ _ hr) _ _ h2
  refine ⟨?_, hmap⟩
  intro r hr hcontra
  have hmem : some (PyVal.intV z) ∈ rows.map (fun r => r.head?) :=
    hcontra ▸ List.mem_map_of_mem _ hr
  rw [hmap] at hmem
  rcases List.mem_map.1 hmem with ⟨k, hkmem, hkeq⟩
  have hkz : k = z := by
    injection hkeq with h1
    injection h1
  exact hz (hkz ▸ hkmem)

/-- C7 witness: a concrete successful run whose elevation table contains the
extra zone 3, absent from the precipitation table; no row reports zone 3 and
the row ids are exactly the precipitation keys. -/
theorem bqart_iteration_precip_keyed_witness :
    do_bqart pwExample tzTwo pzTwo ezThree (some faultRowsTwo) metaExample 1 =
      .ok rowsRun ∧
    (3 : ℤ) ∈ ezThree.map (fun r => r.value) ∧
    (3 : ℤ) ∉ dkeys (buildDict pzTwo) ∧
    ((∀ r ∈ rowsRun, r.head? ≠ some (.intV 3)) ∧
      rowsRun.map (fun r => r.head?) =
        (dkeys (buildDict pzTwo)).map (fun k => some (PyVal.intV k))) :=
  ⟨rfl, by simp [ezThree, ezTwo], by decide,
    bqart_iteration_precip_keyed pwExample tzTwo pzTwo ezThree
      (some faultRowsTwo) metaExample 1 rowsRun 3 rfl
      (by simp [ezThree, ezTwo]) (by decide)⟩

/-- C1 amended: at the fixture inputs (`precip=1000 mm/yr`, `area=1e8 m²`,
`max_elev=2000`, `min_elev=0`, `temp=200` tenths of a degree) the per-zone
chain of `do_bqart` produces `relief_km = 2`, `area_km2 = 100`, `A = 10`
(given `pow(100, 0.5) = 10`), `precip_m_yr = 1`, `discharge_m3_yr = 1e8`,
`Qw_m3_s = 1e8/31536000 ≈ 3.1709792` (not `3.1688765`), `temp_c = 20`, and
the downstream quantities follow
`Qs_MT_yr = ω·B·Qw_km_yr·A·relief_km·temp` and
`Qs_m3_yr = Qs_MT_yr·(1000000000//2700)·1.3` with the Python 2 integer
division `1000000000//2700 = 370370`. -/
theorem bqart_fixture_chain_amended (pw : ℚ → ℚ → ℚ)
    (hA : pw 100 (1 / 2) = 10) :
    (bqart_chain pw 1 1000 100000000 (2000 - 0) 200).relief_km = 2 ∧
    (bqart_chain pw 1 1000 100000000 (2000 - 0) 200).area_km_squared = 100 ∧
    (bqart_chain pw 1 1000 100000000 (2000 - 0) 200).A = 10 ∧
    (bqart_chain pw 1 1000 100000000 (2000 - 0) 200).precip_m = 1 ∧
    (bqart_chain pw 1 1000 100000000 (2000 - 0) 200).precip_m3_yr =
      100000000 ∧
    (bqart_chain pw 1 1000 100000000 (2000 - 0) 200).Qw_s =
      100000000 / 31536000 ∧
    |(bqart_chain pw 1 1000 100000000 (2000 - 0) 200).Qw_s -
      31709792 / 10000000| < 1 / 1000000 ∧
    (bqart_chain pw 1 1000 100000000 (2000 - 0) 200).temp = 20 ∧
    (bqart_chain pw 1 1000 100000000 (2000 - 0) 200).Qw_km_yr =
      pw (1 / 10) (31 / 100) ∧
    (bqart_chain pw 1 1000 100000000 (2000 - 0) 200).Qs_MT_yr =
      (bqart_chain pw 1 1000 100000000 (2000 - 0) 200).omega *
        (bqart_chain pw 1 1000 100000000 (2000 - 0) 200).B *
        (bqart_chain pw 1 1000 100000000 (2000 - 0) 200).Qw_km_yr *
        (bqart_chain pw 1 1000 100000000 (2000 - 0) 200).A *
        (bqart_chain pw 1 1000 100000000 (2000 - 0) 200).relief_km *
        (bqart_chain pw 1 1000 100000000 (2000 - 0) 200).temp ∧
    (bqart_chain pw 1 1000 100000000 (2000 - 0) 200).Qs_m3_yr =
      (bqart_chain pw 1 1000 100000000 (2000 - 0) 200).Qs_MT_yr *
        (370370 * (13 / 10)) := by
  have hdiv : (1000000000 / 2700 : ℤ) = 370370 := by decide
  simp only [bqart_chain, hdiv]
  refine ⟨by norm_num, by norm_num, by norm_num [hA], by norm_num, by norm_num,
    by norm_num, ?_, by norm_num, by norm_num, by norm_num, by norm_num⟩
  rw [show ((1000 / 1000 * 100000000 : ℚ) / (60 * 60 * 24 * 365)) =
      100000000 / 31536000 from by norm_num]
  rw [abs_of_neg (by norm_num)]
  norm_num

/-- C1 counterexample: at the fixture inputs the engine's `Qw_m3_s` is
`1e8/31536000 ≈ 3.1709792`, more than `0.001` away from the claimed
`3.1688765`; and because Python 2 floors `1000000000/density`, `Qs_m3_yr`
differs from the claimed `Qs_MT_yr·(1e9/density)·1.3`. -/
theorem bqart_fixture_qw_cex :
    1 / 1000 <
      |(bqart_chain pwExample 1 1000 100000000 (2000 - 0) 200).Qw_s -
        31688765 / 10000000| ∧
    (bqart_chain pwExample 1 1000 100000000 (2000 - 0) 200).Qs_m3_yr ≠
      (bqart_chain pwExample 1 1000 100000000 (2000 - 0) 200).Qs_MT_yr *
        ((1000000000 / 2700 : ℚ) * (13 / 10)) := by
  have hdiv : (1000000000 / 2700 : ℤ) = 370370 := by decide
  constructor
  · rw [show (bqart_chain pwExample 1 1000 100000000 (2000 - 0) 200).Qw_s =
        100000000 / 31536000 from by norm_num [bqart_chain]]
    rw [abs_of_pos (by norm_num)]
    norm_num
  · simp only [bqart_chain, hdiv, pwExample]
    norm_num

/-- C1 witness: the amended fixture chain instantiated at the concrete
power function `pwExample`. -/
theorem bqart_fixture_chain_amended_witness :
    pwExample 100 (1 / 2) = 10 ∧
    ((bqart_chain pwExample 1 1000 100000000 (2000 - 0) 200).relief_km = 2 ∧
    (bqart_chain pwExample 1 1000 100000000 (2000 - 0) 200).area_km_squared =
      100 ∧
    (bqart_chain pwExample 1 1000 100000000 (2000 - 0) 200).A = 10 ∧
    (bqart_chain pwExample 1 1000 100000000 (2000 - 0) 200).precip_m = 1 ∧
    (bqart_chain pwExample 1 1000 100000000 (2000 - 0) 200).precip_m3_yr =
      100000000 ∧
    (bqart_chain pwExample 1 1000 100000000 (2000 - 0) 200).Qw_s =
      100000000 / 31536000 ∧
    |(bqart_chain pwExample 1 1000 100000000 (2000 - 0) 200).Qw_s -
      31709792 / 10000000| < 1 / 1000000 ∧
    (bqart_chain pwExample 1 1000 100000000 (2000 - 0) 200).temp = 20 ∧
    (bqart_chain pwExample 1 1000 100000000 (2000 - 0) 200).Qw_km_yr =
      pwExample (1 / 10) (31 / 100) ∧
    (bqart_chain pwExample 1 1000 100000000 (2000 - 0) 200).Qs_MT_yr =
      (bqart_chain pwExample 1 1000 100000000 (2000 - 0) 200).omega *
        (bqart_chain pwExample 1 1000 100000000 (2000 - 0) 200).B *
        (bqart_chain pwExample 1 1000 100000000 (2000 - 0) 200).Qw_km_yr *
        (bqart_chain pwExample 1 1000 100000000 (2000 - 0) 200).A *
        (bqart_chain pwExample 1 1000 100000000 (2000 - 0) 200).relief_km *
        (bqart_chain pwExample 1 1000 100000000 (2000 - 0) 200).temp ∧
    (bqart_chain pwExample 1 1000 100000000 (2000 - 0) 200).Qs_m3_yr =
      (bqart_chain pwExample 1 1000 100000000 (2000 - 0) 200).Qs_MT_yr *
        (370370 * (13 / 10))) :=
  ⟨by norm_num [pwExample],
    bqart_fixture_chain_amended pwExample (by norm_num [pwExample])⟩
